import Mathlib

/-!
Verification development for the marketplace-application controller
(`ApplicationController` and the legacy importers `importDepreciatedFields`
and `importDepreciatedDisplayFields`).

The JavaScript runtime primitives used by the controller are modelled as
follows: `JSON.parse` is the executable parser `jsonParse` below (a JSON
subset: no `\u` escapes inside string literals, numbers normalised to
`mantissa * 10 ^ exp10`); `Date.now()` and `randomBytes(32).toString("base64")`
are passed in as explicit parameters; the asynchronous store is modelled by
explicit `Option`/`Except` passing, where returning `.error` means the store
was never written (the source throws before calling `save`).
-/

mutual
/-- JSON values, as produced by `JSON.parse`. Numbers are kept in the
normal form `mantissa * 10 ^ exp10` with the mantissa not divisible by 10
(or zero), so that numerals that denote the same number are equal. -/
inductive Json where
  | null
  | bool (b : Bool)
  | num (mantissa exp10 : Int)
  | str (s : String)
  | arr (elems : JsonList)
  | obj (fields : JsonFields)
deriving DecidableEq

inductive JsonList where
  | nil
  | cons (hd : Json) (tl : JsonList)
deriving DecidableEq

inductive JsonFields where
  | nil
  | cons (key : String) (val : Json) (tl : JsonFields)
deriving DecidableEq
end

/-- JavaScript truthiness of a JSON value: `null`, `false`, `0` and `""`
are falsy, every array and object is truthy. -/
def Json.truthy : Json → Bool
  | .null => false
  | .bool b => b
  | .num m _ => m ≠ 0
  | .str s => s ≠ ""
  | .arr _ => true
  | .obj _ => true

/-- Property lookup in a parsed JSON object; a later duplicate key wins,
as in the JavaScript runtime. -/
def JsonFields.get? : JsonFields → String → Option Json
  | .nil, _ => none
  | .cons k v tl, key =>
    match tl.get? key with
    | some r => some r
    | none => if k = key then some v else none

/-- Property access `j[key]` on a JSON value: `undefined` (here `none`)
unless `j` is an object carrying the key. -/
def Json.getField : Json → String → Option Json
  | .obj fs, key => fs.get? key
  | _, _ => none

/-- Truthiness of a possibly-undefined JSON value. -/
def truthyOpt (o : Option Json) : Bool :=
  (o.map Json.truthy).getD false

def Json.asString : Json → Option String
  | .str s => some s
  | _ => none

def optStr (o : Option Json) : Option String :=
  o.bind Json.asString

/-- String elements of a parsed JSON array (non-string elements dropped;
the TypeScript entity declares these fields as string lists). -/
def JsonList.toStrings : JsonList → List String
  | .nil => []
  | .cons (.str s) tl => s :: tl.toStrings
  | .cons _ tl => tl.toStrings

def Json.asStringList : Json → Option (List String)
  | .arr xs => some xs.toStrings
  | _ => none

/- ### The `JSON.parse` model -/

def lbraceChar : Char := Char.ofNat 123

def rbraceChar : Char := Char.ofNat 125

def skipWs : List Char → List Char
  | c :: cs => if c = ' ' ∨ c = '\n' ∨ c = '\t' ∨ c = '\r' then skipWs cs else c :: cs
  | [] => []

def escChar : Char → Option Char
  | '\"' => some '\"'
  | '\\' => some '\\'
  | '/' => some '/'
  | 'n' => some '\n'
  | 't' => some '\t'
  | 'r' => some '\r'
  | 'b' => some (Char.ofNat 8)
  | 'f' => some (Char.ofNat 12)
  | _ => none

/-- Body of a JSON string literal, after the opening quote: returns the
content and the input after the closing quote. -/
def parseStringBody : List Char → Option (List Char × List Char)
  | [] => none
  | '\\' :: c :: rest =>
    match escChar c, parseStringBody rest with
    | some e, some (s, r) => some (e :: s, r)
    | _, _ => none
  | c :: rest =>
    if c = '\"' then some ([], rest)
    else
      match parseStringBody rest with
      | some (s, r) => some (c :: s, r)
      | none => none

def takeDigits : List Char → List Char × List Char
  | c :: cs =>
    if c.isDigit then
      let (d, r) := takeDigits cs
      (c :: d, r)
    else ([], c :: cs)
  | [] => ([], [])

def digitsToNat (ds : List Char) : Nat :=
  ds.foldl (fun n c => n * 10 + (c.toNat - 48)) 0

/-- Fractional part `.digits`, if present. -/
def parseFrac : List Char → Option (List Char × List Char)
  | '.' :: r =>
    let (ds, rest) := takeDigits r
    if ds.isEmpty then none else some (ds, rest)
  | cs => some ([], cs)

/-- Exponent part `e digits` with optional sign, if present. -/
def parseExp : List Char → Option (Int × List Char)
  | c :: r =>
    if c = 'e' ∨ c = 'E' then
      let (sign, r2) : Int × List Char :=
        match r with
        | '+' :: t => (1, t)
        | '-' :: t => (-1, t)
        | _ => (1, r)
      let (ds, rest) := takeDigits r2
      if ds.isEmpty then none else some (sign * (digitsToNat ds : Int), rest)
    else some (0, c :: r)
  | [] => some (0, [])

def stripZeros : Nat → Int → Int → Int × Int
  | 0, m, e => (m, e)
  | f + 1, m, e => if m ≠ 0 ∧ m % 10 = 0 then stripZeros f (m / 10) (e + 1) else (m, e)

def mkNum (m e : Int) : Json :=
  if m = 0 then Json.num 0 0
  else
    let (m2, e2) := stripZeros m.natAbs m e
    Json.num m2 e2

def parseNumber (cs : List Char) : Option (Json × List Char) :=
  let (neg, cs1) : Bool × List Char :=
    match cs with
    | '-' :: r => (true, r)
    | _ => (false, cs)
  let (ds, cs2) := takeDigits cs1
  if ds.isEmpty then none
  else if ds.length > 1 ∧ ds.headD 'x' = '0' then none
  else
    match parseFrac cs2 with
    | none => none
    | some (fds, cs3) =>
      match parseExp cs3 with
      | none => none
      | some (e, cs4) =>
        let mant : Nat := digitsToNat (ds ++ fds)
        let m : Int := if neg then -(mant : Int) else (mant : Int)
        some (mkNum m (e - fds.length), cs4)

mutual
def parseValue : Nat → List Char → Option (Json × List Char)
  | 0, _ => none
  | fuel + 1, cs =>
    match skipWs cs with
    | [] => none
    | c :: rest =>
      if c = lbraceChar then
        match skipWs rest with
        | c2 :: r =>
          if c2 = rbraceChar then some (.obj .nil, r)
          else
            match parseMembers fuel rest with
            | some (fs, r2) => some (.obj fs, r2)
            | none => none
        | [] => none
      else if c = '[' then
        match skipWs rest with
        | ']' :: r => some (.arr .nil, r)
        | _ =>
          match parseElems fuel rest with
          | some (vs, r2) => some (.arr vs, r2)
          | none => none
      else if c = '\"' then
        match parseStringBody rest with
        | some (s, r) => some (.str (String.mk s), r)
        | none => none
      else
        match c :: rest with
        | 't' :: 'r' :: 'u' :: 'e' :: r => some (.bool true, r)
        | 'f' :: 'a' :: 'l' :: 's' :: 'e' :: r => some (.bool false, r)
        | 'n' :: 'u' :: 'l' :: 'l' :: r => some (.null, r)
        | cs2 => parseNumber cs2

def parseMembers : Nat → List Char → Option (JsonFields × List Char)
  | 0, _ => none
  | fuel + 1, cs =>
    match skipWs cs with
    | '\"' :: r =>
      match parseStringBody r with
      | none => none
      | some (key, r2) =>
        match skipWs r2 with
        | ':' :: r3 =>
          match parseValue fuel r3 with
          | none => none
          | some (v, r4) =>
            match skipWs r4 with
            | c :: r5 =>
              if c = ',' then
                match parseMembers fuel r5 with
                | some (fs, r6) => some (.cons (String.mk key) v fs, r6)
                | none => none
              else if c = rbraceChar then some (.cons (String.mk key) v .nil, r5)
              else none
            | [] => none
        | _ => none
    | _ => none

def parseElems : Nat → List Char → Option (JsonList × List Char)
  | 0, _ => none
  | fuel + 1, cs =>
    match parseValue fuel cs with
    | none => none
    | some (v, r) =>
      match skipWs r with
      | ',' :: r2 =>
        match parseElems fuel r2 with
        | some (vs, r3) => some (.cons v vs, r3)
        | none => none
      | ']' :: r2 => some (.cons v .nil, r2)
      | _ => none
end

/-- Model of `JSON.parse`: parse a complete JSON document, failing (like
the thrown `SyntaxError`) on trailing garbage or malformed input. -/
def jsonParse (s : String) : Except Unit Json :=
  match parseValue (2 * s.length + 2) s.data with
  | some (j, rest) => if skipWs rest = [] then .ok j else .error ()
  | none => .error ()

example : jsonParse "not json" = .error () := rfl
example : jsonParse "[]" = .ok (.arr .nil) := rfl
example : jsonParse "null" = .ok .null := rfl
example : jsonParse "[\"a\", \"b\"]" = .ok (.arr (.cons (.str "a") (.cons (.str "b") .nil))) := rfl
example : jsonParse "undefined" = .error () := rfl

/- ### The structured application record

Modelled from the spec: the entity files (`entities/application.ts`,
`entities/php-application-entity.ts`) are not part of the reviewed sources;
their field shapes are taken from spec section 3 ("DATA MODEL") and from
every field access the reviewed controller performs on them. -/

structure Identity where
  code : Option String
  name : Option String
  icon : Option String
  description : Option String
  website : Option String
  categories : List String
  compatibility : List String
  repository : Option String
deriving DecidableEq

structure Publication where
  published : Bool
  requested : Bool
deriving DecidableEq

structure Stats where
  created_at : Int
  updated_at : Int
  version : Int
deriving DecidableEq

structure Api where
  hooks_url : Option String
  allowed_ips : Option String
  private_key : Option String
deriving DecidableEq

/-- Access lists; the migration assigns the raw result of `JSON.parse`
to these fields, so they are modelled as JSON values. -/
structure Access where
  read : Json
  write : Json
  delete : Json
  hooks : Json
deriving DecidableEq

/-- A JavaScript expression of the shape `object || true`: either the
object branch or a boolean flag. An object is always truthy, so `orTrue`
never actually produces the flag from an `obj` value. -/
inductive JsObjOrBool (α : Type) where
  | obj (value : α)
  | flag (b : Bool)
deriving DecidableEq

def JsObjOrBool.truthy : JsObjOrBool α → Bool
  | .obj _ => true
  | .flag b => b

def JsObjOrBool.orTrue (v : JsObjOrBool α) : JsObjOrBool α :=
  if v.truthy then v else .flag true

structure TabUrl where
  url : Option String
deriving DecidableEq

structure DirectInfo where
  name : Option String
  icon : Option String
deriving DecidableEq

structure FilesEditor where
  preview_url : Option String
  edition_url : Option String
  extensions : List String
  empty_files : Json
deriving DecidableEq

structure FilesConfig where
  editor : Option FilesEditor
  actions : List Json
deriving DecidableEq

structure ChatInput where
  icon : Option String
deriving DecidableEq

structure ChatAction where
  name : Option String
  id : String
deriving DecidableEq

structure ChatConfig where
  input : Option ChatInput
  commands : Option Json
  actions : Option (List ChatAction)
deriving DecidableEq

structure TwakeDisplay where
  tab : Option (JsObjOrBool TabUrl)
  standalone : Option (JsObjOrBool TabUrl)
  configuration : List String
  direct : Option (JsObjOrBool DirectInfo)
  files : Option FilesConfig
  chat : Option ChatConfig
deriving DecidableEq

structure Display where
  twake : TwakeDisplay
deriving DecidableEq

structure Application where
  id : String
  company_id : String
  is_default : Bool
  identity : Identity
  publication : Publication
  stats : Stats
  api : Api
  access : Access
  display : Display
deriving DecidableEq

def TwakeDisplay.empty : TwakeDisplay :=
  { tab := none, standalone := none, configuration := [], direct := none,
    files := none, chat := none }

/-- The value of `new Application()`: every column starts out unset
(`undefined` in the runtime), rendered here by the neutral defaults. -/
def Application.empty : Application :=
  { id := "", company_id := "", is_default := false,
    identity := { code := none, name := none, icon := none, description := none,
                  website := none, categories := [], compatibility := [], repository := none },
    publication := { published := false, requested := false },
    stats := { created_at := 0, updated_at := 0, version := 0 },
    api := { hooks_url := none, allowed_ips := none, private_key := none },
    access := { read := .null, write := .null, delete := .null, hooks := .null },
    display := { twake := .empty } }

/- ### The legacy (PHP) application record

Modelled from the spec: the `PhpApplication` entity file is absent from the
reviewed sources; fields are those the importer reads, per spec section 3
("LegacyApplicationRecord"). -/

structure PhpApplication where
  id : String
  group_id : String
  is_default : Bool
  depreciated_name : Option String
  depreciated_simple_name : Option String
  depreciated_icon_url : Option String
  depreciated_description : Option String
  depreciated_is_available_to_public : Bool
  depreciated_public : Bool
  depreciated_twake_team_validation : Bool
  depreciated_api_events_url : Option String
  depreciated_api_allowed_ip : Option String
  depreciated_api_private_key : Option String
  depreciated_capabilities : Option String
  depreciated_privileges : Option String
  depreciated_hooks : Option String
  depreciated_display_configuration : Option String
deriving DecidableEq

/-- The decoded shape of the legacy display-configuration blob
(`DepreciatedDisplayConfiguration`). Modelled from the spec and from every
property the display importer reads off the parsed blob. -/
structure DepChannelTab where
  iframe : Option String

structure DepStandaloneApp where
  iframe : Option String

structure DepConfigurationFlags where
  can_configure_in_workspace : Bool
  can_configure_in_channel : Bool

structure DepCanOpenFiles where
  preview_url : Option String
  url : Option String
  main_ext : Option (List String)
  other_ext : Option (List String)

structure DepDriveModule where
  can_open_files : Option DepCanOpenFiles
  can_create_files : Option Json

structure DepAction where
  description : Option String

structure DepMessagesModule where
  in_plus : Bool
  right_icon : Bool
  commands : Option Json
  action : Option DepAction

structure DepreciatedDisplayConfiguration where
  channel_tab : Option DepChannelTab
  app : Option DepStandaloneApp
  configuration : Option DepConfigurationFlags
  member_app : Bool
  drive_module : Option DepDriveModule
  messages_module : Option DepMessagesModule

/-- Projection of an arbitrary parsed JSON blob onto the fields the
display importer reads, with JavaScript truthiness and optional-chaining
semantics (`some` exactly when the runtime would take the truthy branch). -/
def decodeDep (j : Json) : DepreciatedDisplayConfiguration :=
  { channel_tab :=
      match j.getField "channel_tab" with
      | some ct => if ct.truthy then some { iframe := optStr (ct.getField "iframe") } else none
      | none => none
    app :=
      match j.getField "app" with
      | some a => if a.truthy then some { iframe := optStr (a.getField "iframe") } else none
      | none => none
    configuration :=
      (j.getField "configuration").map fun c =>
        { can_configure_in_workspace := truthyOpt (c.getField "can_configure_in_workspace")
          can_configure_in_channel := truthyOpt (c.getField "can_configure_in_channel") }
    member_app := truthyOpt (j.getField "member_app")
    drive_module :=
      match j.getField "drive_module" with
      | some dm =>
        if dm.truthy then
          some { can_open_files :=
                   (dm.getField "can_open_files").map fun cf =>
                     { preview_url := optStr (cf.getField "preview_url")
                       url := optStr (cf.getField "url")
                       main_ext := (cf.getField "main_ext").bind Json.asStringList
                       other_ext := (cf.getField "other_ext").bind Json.asStringList }
                 can_create_files := dm.getField "can_create_files" }
        else none
      | none => none
    messages_module :=
      match j.getField "messages_module" with
      | some mm =>
        if mm.truthy then
          some { in_plus := truthyOpt (mm.getField "in_plus")
                 right_icon := truthyOpt (mm.getField "right_icon")
                 commands := mm.getField "commands"
                 action :=
                   match mm.getField "action" with
                   | some a =>
                     if a.truthy then some { description := optStr (a.getField "description") }
                     else none
                   | none => none }
        else none
      | none => none }

/-- Source line `JSON.parse(application.depreciated_display_configuration)`:
an absent column coerces to the string "undefined", which never parses, so
an absent blob fails exactly like a malformed one. -/
def parseDepDisplay (s : Option String) : Except Unit DepreciatedDisplayConfiguration :=
  match jsonParse (match s with | some t => t | none => "undefined") with
  | .ok j => .ok (decodeDep j)
  | .error e => .error e

/- ### importDepreciatedDisplayFields -/

/-- Embedding of `importDepreciatedDisplayFields`. The source first
replaces an absent `display`/`display.twake` with an empty object; in this
model `display.twake` is always present and the fallback value is the same
empty record, so that step is the identity. Field assignments follow the
source order. `files` and `chat` are only assigned inside their module
guards, so they keep the prior display value when the module is absent. -/
def importDepreciatedDisplayFields (application : Application)
    (depreciatedDisplay : DepreciatedDisplayConfiguration) : Display :=
  let display := application.display
  let twake := display.twake
  let twake := { twake with
    tab :=
      match depreciatedDisplay.channel_tab with
      | some ct => some (JsObjOrBool.orTrue (.obj { url := ct.iframe }))
      | none => none
    standalone :=
      match depreciatedDisplay.app with
      | some a => some (JsObjOrBool.orTrue (.obj { url := a.iframe }))
      | none => none }
  let cfg : List String := []
  let cfg :=
    if (depreciatedDisplay.configuration.map (fun c => c.can_configure_in_workspace)).getD false
    then cfg ++ ["global"] else cfg
  let cfg :=
    if (depreciatedDisplay.configuration.map (fun c => c.can_configure_in_channel)).getD false
    then cfg ++ ["channel"] else cfg
  let twake := { twake with
    configuration := cfg
    direct :=
      if depreciatedDisplay.member_app then
        some (JsObjOrBool.orTrue
          (.obj { name := application.identity.name, icon := application.identity.icon }))
      else none
    files :=
      match depreciatedDisplay.drive_module with
      | some dm =>
        some { editor := some
                 { preview_url := dm.can_open_files.bind (fun c => c.preview_url)
                   edition_url := dm.can_open_files.bind (fun c => c.url)
                   extensions :=
                     ((dm.can_open_files.bind (fun c => c.main_ext)).getD []) ++
                     ((dm.can_open_files.bind (fun c => c.other_ext)).getD [])
                   empty_files :=
                     match dm.can_create_files with
                     | some v => if v.truthy then v else Json.arr .nil
                     | none => Json.arr .nil }
               actions := [] }
      | none => twake.files
    chat :=
      match depreciatedDisplay.messages_module with
      | some mm =>
        some { input :=
                 if mm.in_plus || mm.right_icon then
                   some { icon := application.identity.icon }
                 else none
               commands :=
                 match mm.commands with
                 | some c => if c.truthy then some c else none
                 | none => none
               actions :=
                 match mm.action with
                 | some a => some [{ name := a.description, id := "default" }]
                 | none => none }
      | none => twake.chat }
  { display with twake := twake }

/- ### importDepreciatedFields -/

/-- JavaScript `a || b` on a nullable string: `undefined`, `null` and the
empty string fall through to the default. -/
def jsOrS (a : Option String) (b : String) : String :=
  match a with
  | some s => if s = "" then b else s
  | none => b

/-- One capability field: `JSON.parse(legacyString || "[]") || []` inside a
try/catch whose handler assigns `[]`. -/
def capField (s : Option String) : Json :=
  match jsonParse (jsOrS s "[]") with
  | .ok j => if j.truthy then j else Json.arr .nil
  | .error _ => Json.arr .nil

/-- The `access` block of `importDepreciatedFields`: `write` and `delete`
both parse `depreciated_capabilities` (two `JSON.parse` calls on the same
string inside one try block, hence the same result), `read` parses
`depreciated_privileges`, `hooks` parses `depreciated_hooks`. -/
def importedAccess (application : PhpApplication) : Access :=
  { write := capField application.depreciated_capabilities
    delete := capField application.depreciated_capabilities
    read := capField application.depreciated_privileges
    hooks := capField application.depreciated_hooks }

/-- The record `importDepreciatedFields` builds before the display step:
the `new Application()` with id, identity, publication, stats, api and
access blocks populated. The source guards each block with a presence
check on the freshly constructed record, whose columns are all unset, so
every guard passes and every block executes. The `Date.now()` calls are
the `now` parameter. -/
def importedBase (now : Int) (application : PhpApplication) : Application :=
  let newApplication := Application.empty
  let newApplication := { newApplication with
    id := application.id
    company_id := application.group_id
    is_default := application.is_default }
  let newApplication := { newApplication with identity :=
    { code := some (jsOrS application.depreciated_simple_name
                     ((jsOrS application.depreciated_name "").toLower))
      name := application.depreciated_name
      icon := application.depreciated_icon_url
      description := application.depreciated_description
      website := some "http://twake.app/"
      categories := []
      compatibility := ["twake"]
      repository := none } }
  let newApplication := { newApplication with publication :=
    { published := application.depreciated_is_available_to_public
      requested := application.depreciated_public &&
                   !application.depreciated_twake_team_validation } }
  let newApplication := { newApplication with stats :=
    { version := 1, created_at := now, updated_at := now } }
  let newApplication := { newApplication with api :=
    { hooks_url := application.depreciated_api_events_url
      allowed_ips := application.depreciated_api_allowed_ip
      private_key := application.depreciated_api_private_key } }
  { newApplication with access := importedAccess application }

/-- Embedding of `importDepreciatedFields`: the populated base record with
its display replaced by the nested display transformation. A display-blob
parse failure propagates (the source has no try/catch around this step). -/
def importDepreciatedFields (now : Int) (application : PhpApplication) :
    Except Unit Application :=
  let newApplication := importedBase now application
  match parseDepDisplay application.depreciated_display_configuration with
  | .error e => .error e
  | .ok dep =>
    .ok { newApplication with display := importDepreciatedDisplayFields newApplication dep }

/- ### ApplicationController -/

/-- Error kinds thrown via `CrudException`; the message strings carried by
the source are irrelevant to control flow and are dropped. -/
inductive CrudError where
  | notFound
  | badRequest
  | forbidden
deriving DecidableEq

/-- The projection compared on a published record:
`_.pick(x, "identity", "api", "access", "display")`. Lodash `isEqual` is
structural deep equality, which on these typed records is `=`. -/
def pickFrozen (a : Application) : Identity × Api × Access × Display :=
  (a.identity, a.api, a.access, a.display)

/-- Source lines 264-267 of `ApplicationController.save`:
`entity.publication.requested = app.publication.requested;` and then, when
the request carries `requested === false`, `entity.publication.published = false`. -/
def applyRequested (entity app : Application) : Application :=
  let entity := { entity with publication :=
    { entity.publication with requested := app.publication.requested } }
  if app.publication.requested = false then
    { entity with publication := { entity.publication with published := false } }
  else entity

/-- Source lines 282-289 of `ApplicationController.save`: the field writes
applied to the stored entity on the update path, then
`stats.updated_at = now; stats.version++`. -/
def applyWrites (entity app : Application) (now : Int) : Application :=
  { entity with
    identity := app.identity
    api := { entity.api with hooks_url := app.api.hooks_url
                             allowed_ips := app.api.allowed_ips }
    access := app.access
    display := app.display
    stats := { entity.stats with updated_at := now
                                 version := entity.stats.version + 1 } }

/-- The update branch of `ApplicationController.save` (a request carrying an
`application_id`). `stored` is the store lookup result; returning `.ok`
models a successful `marketplaceApps.save(entity)`, returning `.error`
models a throw before any store write. -/
def saveUpdate (stored : Option Application) (app : Application) (now : Int) :
    Except CrudError Application :=
  match stored with
  | none => .error .notFound
  | some entity =>
    let entity := applyRequested entity app
    if entity.publication.published then
      if pickFrozen entity = pickFrozen app then .ok (applyWrites entity app now)
      else .error .badRequest
    else .ok (applyWrites entity app now)

/-- The insert branch of `ApplicationController.save` (no `application_id`):
the caller-supplied draft with `is_default`, `publication.published`,
`api.private_key` and `stats` forcibly overwritten. `freshKey` stands for
`randomBytes(32).toString("base64")`. -/
def saveCreate (app : Application) (now : Int) (freshKey : String) : Application :=
  { app with
    is_default := false
    publication := { app.publication with published := false }
    api := { app.api with private_key := some freshKey }
    stats := { created_at := now, updated_at := now, version := 0 } }

/-- A sequence of update requests against the same record, each applied to
the state the previous one persisted; the first failure aborts. -/
def runUpdates : Application → List (Application × Int) → Except CrudError Application
  | entity, [] => .ok entity
  | entity, (req, now) :: rest =>
    match saveUpdate (some entity) req now with
    | .ok entity2 => runUpdates entity2 rest
    | .error e => .error e

/-- Embedding of `ApplicationController.migrate`, flattening the page loop
into the list of legacy records it visits in order. `replaceExisting` is the
constant `true` in the source, so the `findOne` guard always passes and
every record is imported. An exception from `importDepreciatedFields`
propagates out of the loop to the surrounding catch, which rethrows: the
whole batch fails. -/
def migrate (now : Int) : List PhpApplication → Except Unit (List Application)
  | [] => .ok []
  | application :: rest =>
    match importDepreciatedFields now application with
    | .error e => .error e
    | .ok newApplication =>
      match migrate now rest with
      | .ok entities => .ok (newApplication :: entities)
      | .error e => .error e

/- ### ApplicationController.event -/

structure CompanyUser where
  role : String
deriving DecidableEq

/-- A JavaScript Promise holding the value it would resolve to. -/
structure JsPromise (α : Type) where
  resolves : α

/-- A Promise is an object, and every object is truthy; the source tests
the un-awaited Promise itself. -/
def JsPromise.truthy (_ : JsPromise α) : Bool := true

/-- The store lookups `ApplicationController.event` performs, resolved:
the application by id, the membership of `(request.body.company_id,
context.user.id)`, and the `companyApps` installation row. -/
structure EventEnv where
  application : Option Application
  membership : Option CompanyUser
  installed : Bool

inductive EventOutcome where
  | notified
deriving DecidableEq

/-- Embedding of `ApplicationController.event`. The source line
`const companyUser = gr.services.companies.getCompanyUser(...)` carries no
`await`, so `companyUser` is the Promise itself and the following
`if (!companyUser)` tests the truthiness of the Promise object. -/
def event (env : EventEnv) : Except CrudError EventOutcome :=
  match env.application with
  | none => .error .notFound
  | some _ =>
    let companyUser : JsPromise (Option CompanyUser) := { resolves := env.membership }
    if companyUser.truthy = false then .error .badRequest
    else if env.installed = false then .error .badRequest
    else .ok .notified

/- ### Sample records used by the concrete instances -/

def sampleIdentity : Identity :=
  { code := some "foo", name := some "Foo", icon := none, description := none,
    website := some "http://twake.app/", categories := [], compatibility := ["twake"],
    repository := none }

def sampleAccess : Access :=
  { read := .arr .nil, write := .arr .nil, delete := .arr .nil, hooks := .arr .nil }

def samplePublished : Application :=
  { id := "app-1", company_id := "co-1", is_default := false,
    identity := sampleIdentity,
    publication := { published := true, requested := true },
    stats := { created_at := 0, updated_at := 0, version := 3 },
    api := { hooks_url := none, allowed_ips := none, private_key := some "key-0" },
    access := sampleAccess,
    display := { twake := .empty } }

def sampleUnpublished : Application :=
  { samplePublished with publication := { published := false, requested := true } }

def sampleLegacy : PhpApplication :=
  { id := "php-1", group_id := "co-1", is_default := false,
    depreciated_name := some "Foo", depreciated_simple_name := none,
    depreciated_icon_url := none, depreciated_description := none,
    depreciated_is_available_to_public := false, depreciated_public := false,
    depreciated_twake_team_validation := false, depreciated_api_events_url := none,
    depreciated_api_allowed_ip := none, depreciated_api_private_key := some "legacy-key",
    depreciated_capabilities := none, depreciated_privileges := none,
    depreciated_hooks := none, depreciated_display_configuration := some "null" }

/- ### Helper lemmas about the update path -/

theorem applyRequested_pickFrozen (entity app : Application) :
    pickFrozen (applyRequested entity app) = pickFrozen entity := by
  unfold applyRequested pickFrozen
  split <;> rfl

theorem applyRequested_api (entity app : Application) :
    (applyRequested entity app).api = entity.api := by
  unfold applyRequested
  split <;> rfl

theorem applyRequested_stats (entity app : Application) :
    (applyRequested entity app).stats = entity.stats := by
  unfold applyRequested
  split <;> rfl

theorem applyRequested_id (entity app : Application) :
    (applyRequested entity app).id = entity.id := by
  unfold applyRequested
  split <;> rfl

theorem applyRequested_company_id (entity app : Application) :
    (applyRequested entity app).company_id = entity.company_id := by
  unfold applyRequested
  split <;> rfl

theorem applyRequested_is_default (entity app : Application) :
    (applyRequested entity app).is_default = entity.is_default := by
  unfold applyRequested
  split <;> rfl

theorem applyRequested_requested (entity app : Application) :
    (applyRequested entity app).publication.requested = app.publication.requested := by
  unfold applyRequested
  split <;> rfl

theorem applyRequested_published_of_true (entity app : Application)
    (h : app.publication.requested = true) :
    (applyRequested entity app).publication.published = entity.publication.published := by
  unfold applyRequested
  rw [if_neg (by simp [h])]

/-- A successful update returns exactly the entity with the requested flag
applied and the update writes applied. -/
theorem saveUpdate_ok_shape {entity app : Application} {now : Int} {out : Application}
    (h : saveUpdate (some entity) app now = .ok out) :
    out = applyWrites (applyRequested entity app) app now := by
  simp only [saveUpdate] at h
  split at h
  · split at h
    · injection h with h
      exact h.symm
    · cases h
  · injection h with h
    exact h.symm

theorem saveUpdate_ok_version {entity app : Application} {now : Int} {out : Application}
    (h : saveUpdate (some entity) app now = .ok out) :
    out.stats.version = entity.stats.version + 1 := by
  rw [saveUpdate_ok_shape h]
  show (applyRequested entity app).stats.version + 1 = entity.stats.version + 1
  rw [applyRequested_stats]

theorem saveUpdate_ok_private_key {entity app : Application} {now : Int} {out : Application}
    (h : saveUpdate (some entity) app now = .ok out) :
    out.api.private_key = entity.api.private_key := by
  rw [saveUpdate_ok_shape h]
  show (applyRequested entity app).api.private_key = entity.api.private_key
  rw [applyRequested_api]

theorem saveUpdate_ok_frame {entity app : Application} {now : Int} {out : Application}
    (h : saveUpdate (some entity) app now = .ok out) :
    out.id = entity.id ∧ out.company_id = entity.company_id ∧
    out.is_default = entity.is_default ∧ out.stats.created_at = entity.stats.created_at := by
  rw [saveUpdate_ok_shape h]
  refine ⟨?_, ?_, ?_, ?_⟩
  · show (applyRequested entity app).id = entity.id
    rw [applyRequested_id]
  · show (applyRequested entity app).company_id = entity.company_id
    rw [applyRequested_company_id]
  · show (applyRequested entity app).is_default = entity.is_default
    rw [applyRequested_is_default]
  · show (applyRequested entity app).stats.created_at = entity.stats.created_at
    rw [applyRequested_stats]

theorem saveUpdate_ok_writes {entity app : Application} {now : Int} {out : Application}
    (h : saveUpdate (some entity) app now = .ok out) :
    out.identity = app.identity ∧ out.api.hooks_url = app.api.hooks_url ∧
    out.api.allowed_ips = app.api.allowed_ips ∧ out.access = app.access ∧
    out.display = app.display ∧ out.publication.requested = app.publication.requested ∧
    out.stats.updated_at = now := by
  rw [saveUpdate_ok_shape h]
  refine ⟨rfl, rfl, rfl, rfl, rfl, ?_, rfl⟩
  show (applyRequested entity app).publication.requested = app.publication.requested
  rw [applyRequested_requested]

/-- The published-freeze rejection: when the stored record is published,
the request does not withdraw the publication request, and the frozen
projection differs, the update throws `badRequest`. -/
theorem saveUpdate_badRequest_of_ne {entity app : Application} {now : Int}
    (hpub : entity.publication.published = true)
    (hreq : app.publication.requested = true)
    (hne : pickFrozen entity ≠ pickFrozen app) :
    saveUpdate (some entity) app now = .error .badRequest := by
  have h1 : (applyRequested entity app).publication.published = true := by
    rw [applyRequested_published_of_true entity app hreq]
    exact hpub
  have h2 : pickFrozen (applyRequested entity app) ≠ pickFrozen app := by
    rw [applyRequested_pickFrozen]
    exact hne
  simp only [saveUpdate, h1, if_true]
  rw [if_neg h2]

theorem runUpdates_ok_version {reqs : List (Application × Int)} {entity out : Application}
    (h : runUpdates entity reqs = .ok out) :
    out.stats.version = entity.stats.version + reqs.length := by
  induction reqs generalizing entity with
  | nil =>
    simp only [runUpdates] at h
    injection h with h
    simp [h]
  | cons head tl ih =>
    obtain ⟨req, now⟩ := head
    simp only [runUpdates] at h
    rcases hstep : saveUpdate (some entity) req now with e | entity2
    · rw [hstep] at h
      cases h
    · rw [hstep] at h
      have h1 := ih h
      have h2 := saveUpdate_ok_version hstep
      rw [h1, h2]
      simp only [List.length_cons]
      push_cast
      ring

theorem runUpdates_ok_frame {reqs : List (Application × Int)} {entity out : Application}
    (h : runUpdates entity reqs = .ok out) :
    out.api.private_key = entity.api.private_key ∧ out.id = entity.id ∧
    out.company_id = entity.company_id ∧ out.is_default = entity.is_default ∧
    out.stats.created_at = entity.stats.created_at := by
  induction reqs generalizing entity with
  | nil =>
    simp only [runUpdates] at h
    injection h with h
    simp [h]
  | cons head tl ih =>
    obtain ⟨req, now⟩ := head
    simp only [runUpdates] at h
    rcases hstep : saveUpdate (some entity) req now with e | entity2
    · rw [hstep] at h
      cases h
    · rw [hstep] at h
      obtain ⟨k1, i1, c1, d1, t1⟩ := ih h
      obtain ⟨i2, c2, d2, t2⟩ := saveUpdate_ok_frame hstep
      exact ⟨k1.trans (saveUpdate_ok_private_key hstep), i1.trans i2, c1.trans c2,
             d1.trans d2, t1.trans t2⟩

/- ### Helper lemmas about the importer -/

theorem importedBase_stats (now : Int) (a : PhpApplication) :
    (importedBase now a).stats = { version := 1, created_at := now, updated_at := now } := rfl

theorem importedBase_access (now : Int) (a : PhpApplication) :
    (importedBase now a).access = importedAccess a := rfl

theorem importDepreciatedFields_err {now : Int} {a : PhpApplication}
    (h : parseDepDisplay a.depreciated_display_configuration = .error ()) :
    importDepreciatedFields now a = .error () := by
  simp only [importDepreciatedFields, h]

theorem importDepreciatedFields_ok_shape {now : Int} {a : PhpApplication} {out : Application}
    (h : importDepreciatedFields now a = .ok out) :
    ∃ dep, parseDepDisplay a.depreciated_display_configuration = .ok dep ∧
      out = { importedBase now a with
                display := importDepreciatedDisplayFields (importedBase now a) dep } := by
  simp only [importDepreciatedFields] at h
  rcases hp : parseDepDisplay a.depreciated_display_configuration with e | dep
  · rw [hp] at h
    cases h
  · rw [hp] at h
    injection h with h
    exact ⟨dep, rfl, h.symm⟩

/- ### Claim C1 -/

/-- Request used against the published sample: it withdraws the publication
request (`requested = false`) and renames the application. -/
def c1Request : Application :=
  { samplePublished with
    publication := { published := true, requested := false }
    identity := { sampleIdentity with name := some "Bar" } }

/-- Claim C1 counterexample: on a stored record with
`publication.published = true`, a request whose frozen projection differs
from the stored one but carries `publication.requested = false` is NOT
rejected — the record is first un-published and the update is applied and
persisted (here the identity changes to the requested one). This refutes
the words "regardless of the value of publication.requested". -/
theorem c1_counterexample :
    samplePublished.publication.published = true ∧
    c1Request.publication.requested = false ∧
    pickFrozen c1Request ≠ pickFrozen samplePublished ∧
    (saveUpdate (some samplePublished) c1Request 7).toOption.map (fun a => a.identity)
      = some c1Request.identity ∧
    c1Request.identity ≠ samplePublished.identity :=
  ⟨rfl, rfl, by decide, rfl, by decide⟩

/-- Claim C1 (amended): for every update request on a stored record with
`publication.published = true` whose `publication.requested` is not false,
if the request's `{identity, api, access, display}` projection differs by
deep equality from the stored one, the update fails with the validation
error and nothing is persisted (the source throws before any store write).
When the request carries `publication.requested = false` the record is
instead un-published first and the update proceeds. -/
theorem c1_published_freeze_rejects (entity app : Application) (now : Int)
    (hpub : entity.publication.published = true)
    (hreq : app.publication.requested = true)
    (hne : pickFrozen entity ≠ pickFrozen app) :
    saveUpdate (some entity) app now = .error .badRequest :=
  saveUpdate_badRequest_of_ne hpub hreq hne

/-- Request keeping `requested = true` but renaming the application. -/
def c1RequestKept : Application :=
  { samplePublished with identity := { sampleIdentity with name := some "Bar" } }

theorem c1_witness :
    saveUpdate (some samplePublished) c1RequestKept 7 = .error .badRequest :=
  c1_published_freeze_rejects samplePublished c1RequestKept 7 rfl rfl (by decide)

/- ### Claim C2 -/

/-- Claim C2: for every caller-supplied draft, create returns the draft
with `is_default = false`, `publication.published = false`,
`api.private_key` set to the freshly generated secret (the random 32-byte
base64 generation is the `freshKey` parameter) and
`stats = {created_at := now, updated_at := now, version := 0}`, overwriting
whatever the draft carried in those fields. -/
theorem c2_create_forces_fields (app : Application) (now : Int) (freshKey : String) :
    (saveCreate app now freshKey).is_default = false ∧
    (saveCreate app now freshKey).publication.published = false ∧
    (saveCreate app now freshKey).api.private_key = some freshKey ∧
    (saveCreate app now freshKey).stats
      = { created_at := now, updated_at := now, version := 0 } :=
  ⟨rfl, rfl, rfl, rfl⟩

/- ### Claim C3 -/

/-- Claim C3: `stats.version` starts at 0 for a directly created record,
at 1 for a migrated record, and every successful update increments it by
exactly one, so a chain of N successful updates adds N. -/
theorem c3_version_monotonic :
    (∀ app now freshKey, (saveCreate app now freshKey).stats.version = 0) ∧
    (∀ (now : Int) (legacy : PhpApplication) (imported : Application),
       importDepreciatedFields now legacy = .ok imported →
       imported.stats.version = 1) ∧
    (∀ (entity : Application) (reqs : List (Application × Int)) (out : Application),
       runUpdates entity reqs = .ok out →
       out.stats.version = entity.stats.version + reqs.length) := by
  refine ⟨fun _ _ _ => rfl, ?_, fun entity reqs out h => runUpdates_ok_version h⟩
  intro now legacy imported h
  obtain ⟨dep, -, hout⟩ := importDepreciatedFields_ok_shape h
  rw [hout]
  show (importedBase now legacy).stats.version = 1
  rw [importedBase_stats]

/-- A request leaving the unpublished sample unpublished. -/
def c3Request : Application :=
  { sampleUnpublished with identity := { sampleIdentity with name := some "Baz" } }

def c3Imported : Application :=
  (importDepreciatedFields 5 sampleLegacy).toOption.getD Application.empty

def c3Out : Application :=
  (runUpdates sampleUnpublished [(c3Request, 8), (c3Request, 9)]).toOption.getD
    Application.empty

theorem c3_witness :
    importDepreciatedFields 5 sampleLegacy = .ok c3Imported ∧
    c3Imported.stats.version = 1 ∧
    runUpdates sampleUnpublished [(c3Request, 8), (c3Request, 9)] = .ok c3Out ∧
    c3Out.stats.version = sampleUnpublished.stats.version + 2 := by
  have h1 : importDepreciatedFields 5 sampleLegacy = .ok c3Imported := rfl
  have h2 : runUpdates sampleUnpublished [(c3Request, 8), (c3Request, 9)] = .ok c3Out := rfl
  refine ⟨h1, c3_version_monotonic.2.1 5 sampleLegacy c3Imported h1, h2, ?_⟩
  have h3 := c3_version_monotonic.2.2 sampleUnpublished [(c3Request, 8), (c3Request, 9)] c3Out h2
  simpa using h3

/- ### Claim C4 -/

/-- Request identical to the unpublished sample except that it withdraws
the publication request. -/
def c4Request : Application :=
  { sampleUnpublished with publication := { published := false, requested := false } }

/-- Claim C4 counterexample: a successful update whose request agrees with
the stored record on `identity`, `api`, `access` and `display` (and whose
`stats` are ignored) still rewrites `publication`: the stored
`requested = true` becomes `false`. Hence update does not write only
`{identity, api.hooks_url, api.allowed_ips, access, display, stats}`. -/
theorem c4_counterexample :
    pickFrozen c4Request = pickFrozen sampleUnpublished ∧
    (saveUpdate (some sampleUnpublished) c4Request 7).toOption.map (fun a => a.publication)
      = some { published := false, requested := false } ∧
    sampleUnpublished.publication = { published := false, requested := true } ∧
    ({ published := false, requested := false } : Publication)
      ≠ sampleUnpublished.publication :=
  ⟨rfl, rfl, rfl, by decide⟩

/-- Claim C4 (amended): `api.private_key` is never touched by update: after
any chain of successful updates it equals the stored one, and after a
create followed by successful updates it is still the key generated at
creation; update writes only `identity`, `api.hooks_url`,
`api.allowed_ips`, `access`, `display`, `stats` — and additionally
`publication` (`requested` copied from the request, `published` forced to
false when `requested` is false) — leaving `id`, `company_id`,
`is_default`, `api.private_key` and `stats.created_at` unchanged. -/
theorem c4_private_key_immutable :
    (∀ (entity : Application) (reqs : List (Application × Int)) (out : Application),
       runUpdates entity reqs = .ok out →
       out.api.private_key = entity.api.private_key ∧ out.id = entity.id ∧
       out.company_id = entity.company_id ∧ out.is_default = entity.is_default ∧
       out.stats.created_at = entity.stats.created_at) ∧
    (∀ (entity app : Application) (now : Int) (out : Application),
       saveUpdate (some entity) app now = .ok out →
       out.identity = app.identity ∧ out.api.hooks_url = app.api.hooks_url ∧
       out.api.allowed_ips = app.api.allowed_ips ∧ out.access = app.access ∧
       out.display = app.display ∧
       out.publication.requested = app.publication.requested ∧
       out.stats.updated_at = now) ∧
    (∀ (draft : Application) (now : Int) (key : String)
       (reqs : List (Application × Int)) (out : Application),
       runUpdates (saveCreate draft now key) reqs = .ok out →
       out.api.private_key = some key) := by
  refine ⟨fun entity reqs out h => runUpdates_ok_frame h,
          fun entity app now out h => saveUpdate_ok_writes h,
          fun draft now key reqs out h => ?_⟩
  have h1 := (runUpdates_ok_frame h).1
  rw [h1]
  rfl

def c4Out : Application :=
  (runUpdates (saveCreate samplePublished 3 "fresh-key") [(c3Request, 8)]).toOption.getD
    Application.empty

theorem c4_witness :
    runUpdates (saveCreate samplePublished 3 "fresh-key") [(c3Request, 8)] = .ok c4Out ∧
    c4Out.api.private_key = some "fresh-key" := by
  have h : runUpdates (saveCreate samplePublished 3 "fresh-key") [(c3Request, 8)]
      = .ok c4Out := rfl
  exact ⟨h, c4_private_key_immutable.2.2 samplePublished 3 "fresh-key" [(c3Request, 8)] c4Out h⟩

/- ### Claim C5 -/

/-- Claim C5: each capability field of the importer is computed from its
own legacy string only (`write` and `delete` share the single
`depreciated_capabilities` string, `read` comes from
`depreciated_privileges`, `hooks` from `depreciated_hooks`); a string that
fails to parse, or an absent string, yields the empty array for exactly
the fields fed by it, with no exception (the functions are total) and no
effect on the others; in particular all four fields are `[]` when every
capability string is "not json". -/
theorem c5_capability_parsing_resilience :
    (∀ (now : Int) (legacy : PhpApplication) (imported : Application),
       importDepreciatedFields now legacy = .ok imported →
       imported.access = importedAccess legacy) ∧
    (∀ s : Option String, jsonParse (jsOrS s "[]") = .error () → capField s = Json.arr .nil) ∧
    capField none = Json.arr .nil ∧
    (∀ legacy : PhpApplication,
       legacy.depreciated_capabilities = some "not json" →
       legacy.depreciated_privileges = some "not json" →
       legacy.depreciated_hooks = some "not json" →
       importedAccess legacy =
         { read := Json.arr .nil, write := Json.arr .nil,
           delete := Json.arr .nil, hooks := Json.arr .nil }) := by
  refine ⟨?_, ?_, rfl, ?_⟩
  · intro now legacy imported h
    obtain ⟨dep, -, hout⟩ := importDepreciatedFields_ok_shape h
    rw [hout]
    show (importedBase now legacy).access = importedAccess legacy
    rw [importedBase_access]
  · intro s h
    simp [capField, h]
  · intro legacy h1 h2 h3
    unfold importedAccess
    rw [h1, h2, h3]
    rfl

def c5Legacy : PhpApplication :=
  { sampleLegacy with
    depreciated_capabilities := some "not json"
    depreciated_privileges := some "not json"
    depreciated_hooks := some "not json" }

def c5Imported : Application :=
  (importDepreciatedFields 5 c5Legacy).toOption.getD Application.empty

theorem c5_witness :
    capField (some "not json") = Json.arr .nil ∧
    importedAccess c5Legacy
      = { read := Json.arr .nil, write := Json.arr .nil,
          delete := Json.arr .nil, hooks := Json.arr .nil } ∧
    importDepreciatedFields 5 c5Legacy = .ok c5Imported ∧
    c5Imported.access = importedAccess c5Legacy := by
  have h : importDepreciatedFields 5 c5Legacy = .ok c5Imported := rfl
  exact ⟨c5_capability_parsing_resilience.2.1 (some "not json") rfl,
         c5_capability_parsing_resilience.2.2.2 c5Legacy rfl rfl rfl,
         h,
         c5_capability_parsing_resilience.1 5 c5Legacy c5Imported h⟩

/- ### Claim C6 -/

def c6Bad : PhpApplication :=
  { sampleLegacy with id := "php-bad", depreciated_display_configuration := some "not json" }

/-- Claim C6 counterexample: a batch holding a record with a malformed
display blob followed by a perfectly importable record does NOT continue:
the whole migrate call fails, although the second record alone imports
fine. This refutes "the batch continues with the remaining records". -/
theorem c6_counterexample :
    migrate 5 [c6Bad, sampleLegacy] = .error () ∧
    (importDepreciatedFields 5 sampleLegacy).toOption.isSome = true :=
  ⟨rfl, rfl⟩

theorem migrate_cons (now : Int) (a : PhpApplication) (rest : List PhpApplication) :
    migrate now (a :: rest) =
      match importDepreciatedFields now a with
      | .error e => .error e
      | .ok newApplication =>
        match migrate now rest with
        | .ok entities => .ok (newApplication :: entities)
        | .error e => .error e := rfl

/-- Claim C6 (amended): a parse failure of the legacy
display-configuration blob makes that record's import throw, and the
exception aborts the whole migrate batch (there is no per-record
try/catch): whatever records precede or follow the bad one, migrate fails
as a whole and nothing is returned for the remaining records. -/
theorem c6_display_parse_aborts_batch (now : Int) (pre : List PhpApplication)
    (bad : PhpApplication) (post : List PhpApplication)
    (hbad : parseDepDisplay bad.depreciated_display_configuration = .error ()) :
    migrate now (pre ++ bad :: post) = .error () := by
  induction pre with
  | nil =>
    simp only [List.nil_append, migrate]
    rw [importDepreciatedFields_err hbad]
  | cons hd tl ih =>
    rw [List.cons_append, migrate_cons]
    rcases hstep : importDepreciatedFields now hd with e | okv
    · rfl
    · simp only [ih]

theorem c6_witness : migrate 6 [sampleLegacy, c6Bad] = .error () :=
  c6_display_parse_aborts_batch 6 [sampleLegacy] c6Bad [] rfl

/- ### Claim C7 -/

def c7Env : EventEnv :=
  { application := some sampleUnpublished, membership := none, installed := true }

/-- Claim C7: the claim describes the evident intent of the source, but
the source never awaits `getCompanyUser`, so the guard
`if (!companyUser)` tests a Promise object, which is always truthy: a
caller with no membership in the request's company is NOT rejected, and
when the application is installed in that company the application IS
notified. The third conjunct shows the membership lookup result has no
influence at all on the outcome. -/
theorem c7_membership_check_unreachable :
    c7Env.membership = none ∧
    event c7Env = .ok .notified ∧
    (∀ m : Option CompanyUser, event { c7Env with membership := m } = event c7Env) :=
  ⟨rfl, rfl, fun _ => rfl⟩

/- ### Claim C8 -/

def c8Dep : DepreciatedDisplayConfiguration :=
  { channel_tab := some { iframe := none }, app := some { iframe := none },
    configuration := none, member_app := false,
    drive_module := none, messages_module := none }

/-- Claim C8 counterexample: a present channel-tab binding with NO iframe
pointer still yields the iframe-URL object (with an absent `url`), never a
boolean flag: `{ url: ... } || true` can never take the `true` arm because
an object literal is always truthy. The same holds for the standalone-app
binding. -/
theorem c8_counterexample :
    (importDepreciatedDisplayFields Application.empty c8Dep).twake.tab
      = some (.obj { url := none }) ∧
    (∀ b : Bool, (importDepreciatedDisplayFields Application.empty c8Dep).twake.tab
      ≠ some (.flag b)) ∧
    (importDepreciatedDisplayFields Application.empty c8Dep).twake.standalone
      = some (.obj { url := none }) ∧
    (∀ b : Bool, (importDepreciatedDisplayFields Application.empty c8Dep).twake.standalone
      ≠ some (.flag b)) :=
  ⟨rfl, by decide, rfl, by decide⟩

/-- Claim C8 (amended): a present "channel tab" binding always yields an
iframe-URL object, whose `url` carries the iframe pointer when present and
is absent otherwise (the boolean-flag fallback written in the source is
unreachable); an absent binding yields `undefined`. The "standalone app"
binding behaves identically under its own target key. -/
theorem c8_tab_standalone_always_object (app : Application)
    (dep : DepreciatedDisplayConfiguration) :
    (importDepreciatedDisplayFields app dep).twake.tab
      = dep.channel_tab.map (fun ct => JsObjOrBool.obj { url := ct.iframe }) ∧
    (importDepreciatedDisplayFields app dep).twake.standalone
      = dep.app.map (fun a => JsObjOrBool.obj { url := a.iframe }) := by
  constructor
  · cases hct : dep.channel_tab <;>
      simp [importDepreciatedDisplayFields, hct, JsObjOrBool.orTrue, JsObjOrBool.truthy]
  · cases ha : dep.app <;>
      simp [importDepreciatedDisplayFields, ha, JsObjOrBool.orTrue, JsObjOrBool.truthy]

/- ### Claim C9 -/

/-- Claim C9: `display.twake.configuration` is rebuilt as an ordered list,
"global" appended first when workspace-level configuration is allowed,
"channel" appended second when channel-level configuration is allowed;
with both allowed the result is exactly ["global", "channel"]. -/
theorem c9_configuration_global_then_channel (app : Application)
    (dep : DepreciatedDisplayConfiguration) :
    (importDepreciatedDisplayFields app dep).twake.configuration
      = (if (dep.configuration.map fun c => c.can_configure_in_workspace).getD false
         then ["global"] else []) ++
        (if (dep.configuration.map fun c => c.can_configure_in_channel).getD false
         then ["channel"] else []) ∧
    ((dep.configuration.map fun c => c.can_configure_in_workspace).getD false = true →
     (dep.configuration.map fun c => c.can_configure_in_channel).getD false = true →
     (importDepreciatedDisplayFields app dep).twake.configuration
       = ["global", "channel"]) := by
  refine ⟨?_, fun hw hc => ?_⟩
  · cases hw : (dep.configuration.map fun c => c.can_configure_in_workspace).getD false <;>
    cases hc : (dep.configuration.map fun c => c.can_configure_in_channel).getD false <;>
      simp [importDepreciatedDisplayFields, hw, hc]
  · simp [importDepreciatedDisplayFields, hw, hc]

def c9Dep : DepreciatedDisplayConfiguration :=
  { channel_tab := none, app := none,
    configuration := some { can_configure_in_workspace := true,
                            can_configure_in_channel := true },
    member_app := false, drive_module := none, messages_module := none }

theorem c9_witness :
    (importDepreciatedDisplayFields Application.empty c9Dep).twake.configuration
      = ["global", "channel"] :=
  (c9_configuration_global_then_channel Application.empty c9Dep).2 rfl rfl

/- ### Claim C10 -/

/-- Request agreeing with the published sample on every frozen field
except `api.private_key`, and withdrawing the publication request. -/
def c10BypassRequest : Application :=
  { samplePublished with
    publication := { published := true, requested := false }
    api := { samplePublished.api with private_key := some "other-key" } }

/-- Claim C10 counterexample: the freeze is not applied to EVERY update
request on a stored published record — a request differing from the
stored record only in `api.private_key` but carrying
`publication.requested = false` is accepted (the record is un-published
on lines 264-267 before the freeze check on line 269), and the persisted
record still carries the stored key, since update never applies
`private_key` from the request. -/
theorem c10_counterexample :
    samplePublished.publication.published = true ∧
    c10BypassRequest.api.private_key ≠ samplePublished.api.private_key ∧
    c10BypassRequest.identity = samplePublished.identity ∧
    c10BypassRequest.access = samplePublished.access ∧
    c10BypassRequest.display = samplePublished.display ∧
    c10BypassRequest.api.hooks_url = samplePublished.api.hooks_url ∧
    c10BypassRequest.api.allowed_ips = samplePublished.api.allowed_ips ∧
    c10BypassRequest.publication.requested = false ∧
    (saveUpdate (some samplePublished) c10BypassRequest 7).toOption.isSome = true ∧
    (saveUpdate (some samplePublished) c10BypassRequest 7).toOption.map
        (fun a => a.api.private_key) = some samplePublished.api.private_key :=
  ⟨rfl, by decide, rfl, rfl, rfl, rfl, rfl, rfl, rfl, rfl⟩

/-- Claim C10 (amended): the freeze check on a published record compares
the whole `api` object, `private_key` included: for every update request
whose `publication.requested` is not false, a request agreeing with the
stored record on `identity`, `access`, `display`, `api.hooks_url` and
`api.allowed_ips` but carrying a different `api.private_key` is rejected
with the validation error, even though the update path never applies
`private_key` from the request. (A request with
`publication.requested = false` bypasses the freeze entirely, as the
counterexample shows.) -/
theorem c10_freeze_compares_whole_api (entity app : Application) (now : Int)
    (hpub : entity.publication.published = true)
    (hreq : app.publication.requested = true)
    (hid : app.identity = entity.identity)
    (hacc : app.access = entity.access)
    (hdis : app.display = entity.display)
    (hhu : app.api.hooks_url = entity.api.hooks_url)
    (hip : app.api.allowed_ips = entity.api.allowed_ips)
    (hpk : app.api.private_key ≠ entity.api.private_key) :
    saveUpdate (some entity) app now = .error .badRequest := by
  apply saveUpdate_badRequest_of_ne hpub hreq
  intro h
  have hapi : entity.api = app.api := congrArg (fun p => p.2.1) h
  exact hpk (congrArg Api.private_key hapi.symm)

def c10Request : Application :=
  { samplePublished with
    api := { samplePublished.api with private_key := some "other-key" } }

theorem c10_witness :
    saveUpdate (some samplePublished) c10Request 7 = .error .badRequest :=
  c10_freeze_compares_whole_api samplePublished c10Request 7 rfl rfl rfl rfl rfl rfl rfl
    (by decide)
